import Mathlib

/-!
Verification development for the `template-rust` repository: two CLI demo
binaries, `simple_dql` (insert/select "car" documents via DQL) and
`simple_attachment` (upload/download photo attachments), both thin wrappers
over the external Ditto SDK. The demo code under `src/src/bin/` is embedded
faithfully; the SDK facade (query execution, observers, attachment fetch) is
external to the repository and is modelled from the specification of its
contract where a claim depends on it. Such definitions carry a doc comment
starting with `Modelled from the spec:`.
-/

namespace TemplateRust

/-! ## simple_dql.rs: data model -/

/-- The `Car` document record (simple_dql.rs lines 119-123). -/
structure Car where
  color : String
  make : String
  deriving DecidableEq, Repr

/-- The outcome of a DQL `execute` call, as used by simple_dql.rs: an ordered
sequence of result items (already deserialized to `Car` where consumed) and
the mutated document ids of a write. -/
structure QueryResult where
  items : List Car
  mutated_document_ids : List Nat
  deriving DecidableEq, Repr

/-- The literal query text of `dql_insert_car` (simple_dql.rs line 129). -/
def insert_car_query : String := "INSERT INTO cars DOCUMENTS (:newCar)"

/-- The literal query text of `dql_select_cars` (simple_dql.rs line 147). -/
def select_cars_query : String := "SELECT * FROM cars where color = :myColor"

/-- Modelled from the spec: the DQL engine's `execute` for the insert statement
`INSERT INTO cars DOCUMENTS (:newCar)` with the single bound document
`:newCar` (spec section 4.2). The collection `cars` is the list of documents;
the insert appends the one bound document and reports its fresh document id in
`mutated_document_ids`; an insert produces no read items. -/
def execute_insert_car (store : List Car) (car : Car) : List Car × QueryResult :=
  (store ++ [car], { items := [], mutated_document_ids := [store.length] })

/-- Modelled from the spec: the DQL engine's `execute` for the select statement
`SELECT * FROM cars where color = :myColor` (spec section 4.2): the where
clause compares each document's `color` field with the value bound to the
`:myColor` placeholder; matching documents are returned in collection order,
an empty result set when none match. -/
def execute_select_cars (store : List Car) (color : String) : List Car :=
  store.filter (fun c => c.color == color)

/-- Embeds `dql_insert_car` (simple_dql.rs lines 125-140): executes
`insert_car_query` with `newCar` bound to the given car and returns the
query result (paired here with the updated store, since the store is
external state in Rust). -/
def dql_insert_car (store : List Car) (car : Car) : List Car × QueryResult :=
  execute_insert_car store car

/-- Embeds `dql_select_cars` (simple_dql.rs lines 143-163): executes
`select_cars_query` with `myColor` bound to the given color and deserializes
every result item into `Car` (the identity in this model, the items already
being structured). -/
def dql_select_cars (store : List Car) (color : String) : List Car :=
  execute_select_cars store color

/-- One line printed by `simple_dql`'s main, kept structured: `inserted n`
embeds `println!("Inserted {} car{s}", mutations.len())`, `selectedCount`
embeds `println!("Selected {} cars with color={color}", cars.len())`, and
`carLine` embeds `println!("Car with color={color}: {car:?}")`. -/
inductive DqlLine
  | inserted (mutatedCount : Nat)
  | selectedCount (count : Nat) (color : String)
  | carLine (color : String) (car : Car)
  deriving DecidableEq, Repr

/-- The parsed subcommand of `simple_dql` (simple_dql.rs lines 49-67). -/
inductive DqlCmd
  | insertCar (make : String) (color : String)
  | selectCars (color : String)
  deriving DecidableEq, Repr

/-- Embeds the command dispatch of `simple_dql`'s main (simple_dql.rs lines
97-114): runs the one store operation for the subcommand and returns the
updated store together with the lines printed, in order. -/
def dql_main (store : List Car) : DqlCmd → List Car × List DqlLine
  | .insertCar make color =>
    let car : Car := { color := color, make := make }
    let result := dql_insert_car store car
    (result.1, [.inserted result.2.mutated_document_ids.length])
  | .selectCars color =>
    let cars := dql_select_cars store color
    (store, .selectedCount cars.length color :: cars.map (fun c => .carLine color c))

/-! ## simple_attachment.rs: data model -/

/-- The attachment reference token embedded in a photo document: it is an
object carrying an `id` field, which `download_photo` extracts and prints
(simple_attachment.rs lines 138-145). -/
structure AttachmentToken where
  id : String
  deriving DecidableEq, Repr

/-- A document of the `photos` collection, as inserted by `upload_photo`
(simple_attachment.rs lines 109-122): a `photo_name` string field and an
attachment-typed `photo_attachment` field (`none` models a document where
`result_value.get("photo_attachment")` finds nothing). -/
structure PhotoDoc where
  photo_name : String
  photo_attachment : Option AttachmentToken
  deriving DecidableEq, Repr

/-- The fetch events delivered to the `fetch_attachment` callback
(`DittoAttachmentFetchEvent` in the SDK prelude); `Completed` carries the
local path the code prints via `attachment.path()`. -/
inductive DittoAttachmentFetchEvent
  | Progress (downloaded_bytes : Nat) (total_bytes : Nat)
  | Completed (path : String)
  | Deleted
  deriving DecidableEq, Repr

/-- The literal observer query text of `receive_photo_document`
(simple_attachment.rs line 171). Note it carries no where clause and no
`:photo_name` placeholder. -/
def receive_photos_query : String :=
  "SELECT * FROM COLLECTION photos (photo_attachment ATTACHMENT)"

/-- Whether `pat` starts the character list `s`. -/
def charsStartWith : List Char → List Char → Bool
  | _, [] => true
  | [], _ :: _ => false
  | c :: cs, p :: ps => c == p && charsStartWith cs ps

/-- Whether `pat` occurs contiguously inside the character list `s`. -/
def charsContain : List Char → List Char → Bool
  | [], pat => charsStartWith [] pat
  | c :: cs, pat => charsStartWith (c :: cs) pat || charsContain cs pat

/-- Whether `pat` occurs as a substring of `s`. -/
def hasSubstr (s pat : String) : Bool := charsContain s.data pat.data

/-- Modelled from the spec: evaluation of a select/observer query over the
`photos` collection (spec sections 4.2 and 4.5). Named parameters substitute
only at `:name` placeholders occurring in the query text, so the
`photo_name` argument filters the result exactly when the text carries the
`:photo_name` placeholder (in a where clause on `photo_name`); a query text
without it selects every document of the collection, in order. -/
def selectPhotos (queryText : String) (photoNameArg : String)
    (docs : List PhotoDoc) : List PhotoDoc :=
  if hasSubstr queryText ":photo_name" then
    docs.filter (fun d => d.photo_name == photoNameArg)
  else
    docs


/-- Embeds the observer callback closure of `receive_photo_document`
(simple_attachment.rs lines 178-182). `tx` is the captured one-shot sender
(`Option Unit`: present until taken); the argument is the delivered result
set, `get_item(0)` being `List.head?`. On a non-empty result the sender is
taken unconditionally and, when it was still present, item 0 is sent on the
channel; an empty result leaves the sender untouched. Returns the new sender
state and the item sent, if any. -/
def on_result (tx : Option Unit) (query_result : List PhotoDoc) :
    Option Unit × Option PhotoDoc :=
  match query_result.head? with
  | some item =>
    match tx with
    | some _ => (none, some item)
    | none => (none, none)
  | none => (tx, none)

/-- Runs the observer callback over the successive result sets delivered to
it, threading the sender state; returns the final sender state and the items
sent on the one-shot channel, in order. -/
def run_observer (tx : Option Unit) : List (List PhotoDoc) → Option Unit × List PhotoDoc
  | [] => (tx, [])
  | r :: rest =>
    let step := on_result tx r
    let later := run_observer step.1 rest
    (later.1, step.2.toList ++ later.2)

/-- Embeds `receive_photo_document` (simple_attachment.rs lines 167-189) on
one store snapshot: the observer registered with `receive_photos_query` and
argument `photo_name := name` fires immediately with the current matching
set (spec section 4.5), and the function awaits the item the callback sends.
`none` models a run whose callback never sends (empty matching set in this
snapshot model): `rx.await` then never completes and the function does not
return. -/
def receive_photo_document (docs : List PhotoDoc) (name : String) : Option PhotoDoc :=
  (run_observer (some ()) [selectPhotos receive_photos_query name docs]).2.head?

/-- One line printed by the `fetch_attachment` callback of `download_photo`,
kept structured: `progress` embeds the
`println!("Fetcher progress for attachment {photo_id:?}: ...")` line and
`savedPath` embeds the
`println!("Successfully downloaded attachment {photo_id:?} to path ...")`
line carrying the local path of the Completed event. -/
inductive FetchLine
  | progress (photo_id : String) (downloaded_bytes : Nat) (total_bytes : Nat)
  | savedPath (photo_id : String) (path : String)
  deriving DecidableEq, Repr

/-- Embeds the fetch-event closure of `download_photo` (simple_attachment.rs
lines 147-161): Progress and Completed each print one line; Deleted panics
with the given message (`Except.error` models the panic). -/
def fetch_callback (photo_id : String) :
    DittoAttachmentFetchEvent → Except String FetchLine
  | .Progress d t => .ok (.progress photo_id d t)
  | .Completed path => .ok (.savedPath photo_id path)
  | .Deleted => .error "attachment should not get deleted while fetching"

/-- Embeds `download_photo` (simple_attachment.rs lines 129-164). The outer
`none` models a run that never returns (`receive_photo_document` awaits a
channel that is never completed). Otherwise the body extracts
`photo_attachment` and its `id` from the received item (`Except.error` the
anyhow context error when the field is missing), registers the
`fetch_attachment` callback and returns at once: it awaits nothing after the
registration, so the events the background fetch has delivered by the time
the function returns form an arbitrary prefix of the event stream, passed
here as `deliveredBeforeReturn` (the empty prefix is always a possible
schedule). The value is the list of lines the callback printed before the
return, or the error of a panic in the callback. -/
def download_photo (docs : List PhotoDoc) (name : String)
    (deliveredBeforeReturn : List DittoAttachmentFetchEvent) :
    Option (Except String (List FetchLine)) :=
  match receive_photo_document docs name with
  | none => none
  | some item =>
    match item.photo_attachment with
    | none => some (.error "failed to find photo_attachment")
    | some token =>
      some (deliveredBeforeReturn.mapM (fetch_callback token.id))

/-- The file-name component of a Rust `&OsStr`, as `upload_photo` uses it:
`to_str` is its UTF-8 decoding, `none` when the name is not valid UTF-8. -/
structure OsName where
  to_str : Option String
  deriving DecidableEq, Repr

/-- A Rust `&Path` as `upload_photo` uses it: `file_name` is the final
component, `none` when the path has none (e.g. it ends in `..`). -/
structure RustPath where
  file_name : Option OsName
  deriving DecidableEq, Repr

/-- Embeds simple_attachment.rs line 106:
`path.file_name().and_then(|s| s.to_str()).unwrap_or("photo")`. -/
def photo_name_of (path : RustPath) : String :=
  (path.file_name.bind (fun s => s.to_str)).getD "photo"

/-- The line printed by `upload_photo`, kept structured: embeds
`println!("Uploaded photo with name '{photo_name}'")`. -/
inductive AttachLine
  | uploaded (photo_name : String)
  deriving DecidableEq, Repr

/-- Embeds `upload_photo` (simple_attachment.rs lines 105-126): derives the
photo name from the path, then inserts into the `photos` collection the one
document binding `photo_name` and the attachment reference `token` that the
(spec-modelled, externally executed) `new_attachment` call returned, and
prints the uploaded line. Returns the updated collection and the line. -/
def upload_photo (store : List PhotoDoc) (path : RustPath) (token : AttachmentToken) :
    List PhotoDoc × AttachLine :=
  let photo_name := photo_name_of path
  (store ++ [{ photo_name := photo_name, photo_attachment := some token }],
   .uploaded photo_name)

/-! ## Startup steps shared by both binaries -/

/-- The successive startup steps of `main` in both binaries (simple_dql.rs
lines 70-96, simple_attachment.rs lines 64-91), in source order. -/
inductive MainStep
  | loadDotenv
  | parseArgs
  | initClient
  | startSync
  | dispatchCommand
  deriving DecidableEq, Repr

/-- The startup sequence of `simple_dql`'s main: `dotenv::dotenv().ok()`,
`Cli::parse()`, the Ditto builder, `start_sync`, then the subcommand. -/
def simple_dql_main_steps : List MainStep :=
  [.loadDotenv, .parseArgs, .initClient, .startSync, .dispatchCommand]

/-- The startup sequence of `simple_attachment`'s main: identical
(simple_attachment.rs lines 64-99). -/
def simple_attachment_main_steps : List MainStep :=
  [.loadDotenv, .parseArgs, .initClient, .startSync, .dispatchCommand]

/-- Embeds `dotenv::dotenv().ok();` followed by the rest of `main` in either
binary: the `Result` of loading the `.env` file is converted to an `Option`
and discarded, so the rest of the program is the same whatever that result
was. -/
def after_dotenv {α : Type} (dotenvResult : Except String Unit) (rest : α) : α :=
  let _ := dotenvResult.toOption
  rest

/-! ## Concrete documents used in counterexamples and witnesses -/

/-- A photos document whose name differs from the one being downloaded. -/
def otherDoc : PhotoDoc :=
  { photo_name := "other.png", photo_attachment := some { id := "attA" } }

/-- A photos document named `photo.png` with an attachment token. -/
def photoDocA : PhotoDoc :=
  { photo_name := "photo.png", photo_attachment := some { id := "att1" } }

/-! ## Helper lemmas about the one-shot observer callback -/

/-- Once the sender has been taken, an invocation of the callback sends
nothing and the sender stays gone. -/
theorem on_result_consumed (r : List PhotoDoc) : on_result none r = (none, none) := by
  cases r <;> rfl

/-- A run of the observer whose sender is already gone sends nothing. -/
theorem run_observer_consumed (results : List (List PhotoDoc)) :
    run_observer none results = (none, []) := by
  induction results with
  | nil => rfl
  | cons r rest ih => simp [run_observer, on_result_consumed, ih]

/-! ## Claims -/

/-- Claim C1, exhibited as a code bug: the observer query text of
`receive_photo_document` carries no where clause and no `:photo_name`
placeholder, so with a store holding a single photos document whose
`photo_name` is `other.png`, running `download-photo --name photo.png` hands
that document to the attachment fetch even though its `photo_name` differs
from the `--name` argument. -/
theorem C1_wrong_document_selected :
    receive_photo_document [otherDoc] "photo.png" = some otherDoc ∧
      otherDoc.photo_name ≠ "photo.png" := by
  exact ⟨by decide, by decide⟩

/-- Claim C2, exhibited as a code bug: `download_photo` awaits nothing after
registering the `fetch_attachment` callback, so the run in which the
background fetch has delivered no event yet when the body reaches its return
is a successful run (`Except.ok`) that returns with no line printed before
the return — in particular no final saved-path line, which contradicts the
claim that every successful run prints it before the command returns. -/
theorem C2_returns_before_completion :
    download_photo [photoDocA] "photo.png" [] = some (Except.ok []) := by
  rfl

/-- Claim C3, counterexample: a run whose first (and only) callback
invocation delivers an empty result set completes nothing: after that first
invocation the sender is still present and nothing was sent on the channel,
so the one-shot signal is not satisfied on the first invocation of
`on_result`. -/
theorem C3_first_invocation_empty_no_completion :
    run_observer (some ()) [[]] = (some (), []) := by
  rfl

/-- Claim C3 as amended: the one-shot channel is completed on the first
invocation of `on_result` whose result set is non-empty: if every earlier
invocation delivered an empty result set, the invocation delivering a
non-empty result set consumes the sender and sends its item 0. -/
theorem C3_first_nonempty_invocation_completes
    (pre : List (List PhotoDoc)) (hpre : ∀ q ∈ pre, q = [])
    (r : List PhotoDoc) (hr : r ≠ []) :
    run_observer (some ()) (pre ++ [r]) = (none, r.head?.toList) := by
  induction pre with
  | nil =>
    cases r with
    | nil => exact absurd rfl hr
    | cons a as => simp [run_observer, on_result, run_observer_consumed]
  | cons q qs ih =>
    have hq : q = [] := hpre q (List.mem_cons_self q qs)
    subst hq
    have hrec := ih (fun x hx => hpre x (List.mem_cons_of_mem _ hx))
    simp [run_observer, on_result, hrec]

/-- Witness for the amended claim C3: after one empty delivery, the delivery
of a one-element result set sends that element and consumes the sender. -/
theorem C3_first_nonempty_invocation_completes_witness :
    run_observer (some ()) ([[]] ++ [[otherDoc]]) = (none, [otherDoc]) := by
  have h := C3_first_nonempty_invocation_completes [[]]
    (by intro q hq; simpa using hq) [otherDoc] (by simp)
  simpa using h

/-- Claim C4: the fetch-event callback of `download_photo` panics exactly on
a Deleted event (modelled as `Except.error` with the panic message), while
Progress and Completed events always produce a printed line and never
panic. -/
theorem C4_deleted_panics_progress_completed_do_not :
    (∀ i, fetch_callback i .Deleted =
        .error "attachment should not get deleted while fetching") ∧
      (∀ i d t, fetch_callback i (.Progress d t) = .ok (.progress i d t)) ∧
      (∀ i p, fetch_callback i (.Completed p) = .ok (.savedPath i p)) :=
  ⟨fun _ => rfl, fun _ _ _ => rfl, fun _ _ => rfl⟩

/-- Claim C5: for every store and every (make, color) pair, executing the
insert-car operation and then the select-cars operation with the same color
yields a result set containing a document whose make and color equal the
inserted values. -/
theorem C5_insert_then_select_contains_car (store : List Car) (make color : String) :
    ∃ c ∈ dql_select_cars (dql_insert_car store { color := color, make := make }).1 color,
      c.make = make ∧ c.color = color := by
  refine ⟨{ color := color, make := make }, ?_, rfl, rfl⟩
  simp [dql_select_cars, execute_select_cars, dql_insert_car, execute_insert_car]

/-- Claim C6: for every store and (make, color) pair, the insert-car command
performs exactly one insert, of the document with those make and color
fields, into the cars collection (the store grows by exactly that one
document), and prints the count of the mutated document ids returned by the
execute call — which is 1. -/
theorem C6_insert_car_inserts_one_and_prints_count (store : List Car) (make color : String) :
    dql_main store (.insertCar make color) =
      (store ++ [{ color := color, make := make }],
        [.inserted
          (dql_insert_car store { color := color, make := make }).2.mutated_document_ids.length]) ∧
      (dql_insert_car store { color := color, make := make }).2.mutated_document_ids.length = 1 :=
  ⟨rfl, rfl⟩

/-- Claim C7: for every store and color argument, the select-cars command
prints first the count of the matching documents and then each matching
document in order; the matching documents are exactly the documents of the
cars collection whose color field equals the argument. -/
theorem C7_select_cars_prints_count_then_docs (store : List Car) (color : String) :
    (dql_main store (.selectCars color)).2 =
        .selectedCount (dql_select_cars store color).length color ::
          (dql_select_cars store color).map (fun c => .carLine color c) ∧
      (∀ c ∈ dql_select_cars store color, c ∈ store ∧ c.color = color) ∧
      (∀ c ∈ store, c.color = color → c ∈ dql_select_cars store color) := by
  refine ⟨rfl, ?_, ?_⟩
  · intro c hc
    simpa [dql_select_cars, execute_select_cars, List.mem_filter] using hc
  · intro c hc h
    simp [dql_select_cars, execute_select_cars, List.mem_filter, hc, h]

/-- Claim C8: both binaries run the dotenv load as their first startup step,
before argument parsing, and the rest of the program is identical whatever
the outcome of that load was: a missing or unreadable .env file never causes
a failure, the load result being discarded. -/
theorem C8_dotenv_first_and_infallible :
    simple_dql_main_steps[0]? = some .loadDotenv ∧
      simple_dql_main_steps[1]? = some .parseArgs ∧
      simple_attachment_main_steps[0]? = some .loadDotenv ∧
      simple_attachment_main_steps[1]? = some .parseArgs ∧
      ∀ (α : Type) (r r2 : Except String Unit) (rest : α),
        after_dotenv r rest = after_dotenv r2 rest :=
  ⟨rfl, rfl, rfl, rfl, fun _ _ _ _ => rfl⟩

/-- Claim C9: when the given path has no extractable UTF-8 file name, the
inserted document's photo_name falls back to the literal string "photo" and
the upload still proceeds: the document is inserted and the uploaded line is
printed. -/
theorem C9_photo_name_falls_back (store : List PhotoDoc) (token : AttachmentToken)
    (path : RustPath) (h : path.file_name.bind (fun s => s.to_str) = none) :
    upload_photo store path token =
      (store ++ [{ photo_name := "photo", photo_attachment := some token }],
        .uploaded "photo") := by
  simp [upload_photo, photo_name_of, h]

/-- Witness for claim C9 at the path with no file-name component. -/
theorem C9_photo_name_falls_back_witness :
    upload_photo [] { file_name := none } { id := "tok" } =
      ([{ photo_name := "photo", photo_attachment := some { id := "tok" } }],
        .uploaded "photo") :=
  C9_photo_name_falls_back [] { id := "tok" } { file_name := none } rfl

/-- Claim C10: across all invocations of the observer callback registered by
`receive_photo_document`, at most one query item is ever sent on the
one-shot channel: the sender is consumed on the first non-empty result, so
later invocations deliver nothing further. -/
theorem C10_at_most_one_item_sent (results : List (List PhotoDoc)) :
    (run_observer (some ()) results).2.length ≤ 1 := by
  induction results with
  | nil => simp [run_observer]
  | cons r rest ih =>
    cases r with
    | nil => simpa [run_observer, on_result] using ih
    | cons a as => simp [run_observer, on_result, run_observer_consumed]

end TemplateRust
